import Mathlib

set_option maxHeartbeats 1000000

namespace VirtioGpu

/-! Shallow embedding of the virtio-gpu driver in
`kernel/comps/virtio/src/device/gpu/device.rs` of the repository.
The device and the two virtqueues are modelled by a script of scheduled
round trips: each submission on a queue consumes one `RoundTrip` entry,
which says whether `add_dma_buf` succeeds, whether `pop_used` succeeds
after the completion signal, and which response bytes the device leaves
in the response DMA buffer.  Driver functions are translated one-to-one
from the source; Rust `Result` together with panics (`expect`, `unwrap`)
and the unbounded busy-poll loop are captured by `Outcome`. -/

/-- Wire-protocol header `type` codes (`VirtioGpuCtrlType` in `header.rs`).
Modelled from the spec: the numeric values live in `header.rs`, which is not
under `src/`; only the symbolic codes matter to the driver logic.  `zeroed`
stands for the all-zero `Default` header type, which is no valid code. -/
inductive VirtioGpuCtrlType where
  | VIRTIO_GPU_CMD_GET_DISPLAY_INFO
  | VIRTIO_GPU_CMD_GET_EDID
  | VIRTIO_GPU_CMD_RESOURCE_CREATE_2D
  | VIRTIO_GPU_CMD_RESOURCE_ATTACH_BACKING
  | VIRTIO_GPU_CMD_SET_SCANOUT
  | VIRTIO_GPU_CMD_TRANSFER_TO_HOST_2D
  | VIRTIO_GPU_CMD_RESOURCE_FLUSH
  | VIRTIO_GPU_CMD_UPDATE_CURSOR
  | VIRTIO_GPU_RESP_OK_NODATA
  | VIRTIO_GPU_RESP_OK_DISPLAY_INFO
  | VIRTIO_GPU_RESP_OK_EDID
  | VIRTIO_GPU_RESP_ERR_UNSPEC
  | zeroed
deriving DecidableEq, Repr

open VirtioGpuCtrlType

/-- Pixel formats (`VirtioGpuFormat` in `control.rs`); the driver only ever
uses `VIRTIO_GPU_FORMAT_B8G8R8A8_UNORM`. -/
inductive VirtioGpuFormat where
  | VIRTIO_GPU_FORMAT_B8G8R8A8_UNORM
deriving DecidableEq, Repr

/-- The error variant the driver returns on a response-type mismatch
(`VirtioDeviceError::QueueUnknownError` in the source). -/
inductive VirtioDeviceError where
  | QueueUnknownError
deriving DecidableEq, Repr

/-- Result of running driver code: a Rust `Ok`, a Rust `Err`, a panic
(`expect` or `unwrap`), or divergence of the busy-poll loop when the
device never completes the request. -/
inductive Outcome (α : Type) where
  | ok (value : α)
  | err (e : VirtioDeviceError)
  | panicked (msg : String)
  | diverged
deriving DecidableEq, Repr

/-- `virtio_gpu_rect`: a sub-region of a resource or display output. -/
structure VirtioGpuRect where
  x : Nat
  y : Nat
  width : Nat
  height : Nat
deriving DecidableEq, Repr

/-- `virtio_gpu_get_edid` request payload; `Default` zeroes the scanout.
Modelled from the spec (struct body lives in `control.rs`). -/
structure VirtioGpuGetEdid where
  scanout : Nat
deriving DecidableEq, Repr

/-- `virtio_gpu_resource_create_2d` payload.  Constructor argument order
`(resource_id, format, width, height)` is modelled from the spec's wire
layout; the struct body lives in `control.rs`. -/
structure VirtioGpuResourceCreate2D where
  resource_id : Nat
  format : VirtioGpuFormat
  width : Nat
  height : Nat
deriving DecidableEq, Repr

def VirtioGpuResourceCreate2D.new (resource_id : Nat) (format : VirtioGpuFormat)
    (width height : Nat) : VirtioGpuResourceCreate2D :=
  ⟨resource_id, format, width, height⟩

/-- `virtio_gpu_resource_attach_backing` payload (header part).  Modelled
from the spec: `(resource_id, nr_entries)`. -/
structure VirtioGpuResourceAttachBacking where
  resource_id : Nat
  nr_entries : Nat
deriving DecidableEq, Repr

def VirtioGpuResourceAttachBacking.new (resource_id nr_entries : Nat) :
    VirtioGpuResourceAttachBacking :=
  ⟨resource_id, nr_entries⟩

/-- `virtio_gpu_mem_entry`: one backing segment `(addr, length)`. -/
structure VirtioGpuMemEntry where
  addr : Nat
  length : Nat
deriving DecidableEq, Repr

def VirtioGpuMemEntry.new (addr length : Nat) : VirtioGpuMemEntry :=
  ⟨addr, length⟩

/-- `virtio_gpu_set_scanout` payload; constructor order
`(scanout_id, resource_id, rect)` as used by the driver. -/
structure VirtioGpuSetScanout where
  scanout_id : Nat
  resource_id : Nat
  rect : VirtioGpuRect
deriving DecidableEq, Repr

def VirtioGpuSetScanout.new (scanout_id resource_id : Nat) (rect : VirtioGpuRect) :
    VirtioGpuSetScanout :=
  ⟨scanout_id, resource_id, rect⟩

/-- `virtio_gpu_transfer_to_host_2d` payload; constructor order
`(rect, offset, resource_id)` as used by the driver. -/
structure VirtioGpuTransferToHost2D where
  rect : VirtioGpuRect
  offset : Nat
  resource_id : Nat
deriving DecidableEq, Repr

def VirtioGpuTransferToHost2D.new (rect : VirtioGpuRect) (offset resource_id : Nat) :
    VirtioGpuTransferToHost2D :=
  ⟨rect, offset, resource_id⟩

/-- `virtio_gpu_resource_flush` payload; constructor order
`(rect, resource_id)` as used by the driver. -/
structure VirtioGpuResourceFlush where
  rect : VirtioGpuRect
  resource_id : Nat
deriving DecidableEq, Repr

def VirtioGpuResourceFlush.new (rect : VirtioGpuRect) (resource_id : Nat) :
    VirtioGpuResourceFlush :=
  ⟨rect, resource_id⟩

/-- `virtio_gpu_cursor_pos`: `(scanout_id, x, y)`.  Constructor argument
order is modelled from the spec's wire layout. -/
structure VirtioGpuCursorPos where
  scanout_id : Nat
  pos_x : Nat
  pos_y : Nat
deriving DecidableEq, Repr

def VirtioGpuCursorPos.new (scanout_id pos_x pos_y : Nat) : VirtioGpuCursorPos :=
  ⟨scanout_id, pos_x, pos_y⟩

/-- `virtio_gpu_update_cursor` payload: `(pos, resource_id, hot_x, hot_y)`.
Constructor argument order is modelled from the spec's wire layout. -/
structure VirtioGpuUpdateCursor where
  pos : VirtioGpuCursorPos
  resource_id : Nat
  hot_x : Nat
  hot_y : Nat
deriving DecidableEq, Repr

def VirtioGpuUpdateCursor.new (pos : VirtioGpuCursorPos) (resource_id hot_x hot_y : Nat) :
    VirtioGpuUpdateCursor :=
  ⟨pos, resource_id, hot_x, hot_y⟩

/-- A typed view of the request bytes the driver serializes into a request
DMA buffer for one command (header together with the command payload). -/
inductive GpuCommand where
  | getDisplayInfo
  | getEdid (req : VirtioGpuGetEdid)
  | resourceCreate2D (req : VirtioGpuResourceCreate2D)
  | resourceAttachBacking (req : VirtioGpuResourceAttachBacking) (entry : VirtioGpuMemEntry)
  | setScanout (req : VirtioGpuSetScanout)
  | transferToHost2D (req : VirtioGpuTransferToHost2D)
  | resourceFlush (req : VirtioGpuResourceFlush)
  | updateCursor (req : VirtioGpuUpdateCursor)
deriving DecidableEq, Repr

/-- A typed view of the response bytes the device leaves in a response DMA
buffer: the header `type` plus, for `GET_DISPLAY_INFO`, the per-scanout
rectangles (`pmodes`).  `get_rect` is modelled from the spec: the response
struct and its accessor live in `control.rs`, not under `src/`. -/
structure GpuResponse where
  type_ : VirtioGpuCtrlType
  rects : List VirtioGpuRect
deriving DecidableEq, Repr

def GpuResponse.header_type (r : GpuResponse) : VirtioGpuCtrlType := r.type_

/-- Positional lookup in a list, returning `none` past the end. -/
def listNth {α : Type} : List α → Nat → Option α
  | [], _ => none
  | a :: _, 0 => some a
  | _ :: rest, n + 1 => listNth rest n

def GpuResponse.get_rect (r : GpuResponse) (index : Nat) : Option VirtioGpuRect :=
  listNth r.rects index

/-- `Default`-initialized response value the driver writes into the
response buffer before submitting (all-zero header). -/
def defaultResponse : GpuResponse := ⟨VirtioGpuCtrlType.zeroed, []⟩

/-- Scheduled behaviour of one submission on a virtqueue: whether
`add_dma_buf` succeeds, whether `pop_used` succeeds once the completion is
signalled, and the response the device writes back. -/
structure RoundTrip where
  enqOk : Bool
  popOk : Bool
  resp : GpuResponse
deriving DecidableEq, Repr

/-- One queue adapter: its remaining device script, the trace of commands
enqueued on the virtqueue so far, and the current contents of its request
and response DMA buffers. -/
structure AdapterState where
  script : List RoundTrip
  trace : List GpuCommand
  requestBuf : Option GpuCommand
  responseBuf : Option GpuResponse
deriving DecidableEq, Repr

/-- The `GPUDevice` state visible to the embedded driver code: the control
adapter, the cursor adapter, and the physical address the frame allocator
will hand out for the framebuffer segment. -/
structure GpuState where
  control : AdapterState
  cursor : AdapterState
  allocPaddr : Nat
deriving DecidableEq, Repr

/-- The long-lived framebuffer DMA handle returned by `setup_framebuffer`:
its physical address and its page-granular backing size in 4096-byte
pages (`alloc_segment(fracme_num)`). -/
structure FrameBuffer where
  paddr : Nat
  pages : Nat
deriving DecidableEq, Repr

def addBufFailMsg : String := "Add buffers to queue failed"

def popFailMsg : String := "Pop used failed"

def unwrapNoneMsg : String := "called unwrap on None"

def USIZE_MOD : Nat := 2 ^ 64

def U32_MOD : Nat := 2 ^ 32

/-- One synchronous submit-and-wait round trip on a queue adapter,
mirroring the common body of every driver method: write the request bytes
into the request DMA buffer, pre-initialize the response buffer with a
default value, `add_dma_buf` (panics via `expect` on failure), notify,
busy-poll `can_pop` (diverges if the device never completes), `pop_used`
(panics via `expect` on failure) and read back the response. -/
def roundTrip (a : AdapterState) (cmd : GpuCommand) : Outcome GpuResponse × AdapterState :=
  let a1 : AdapterState :=
    { a with requestBuf := some cmd, responseBuf := some defaultResponse }
  match a1.script with
  | [] => (Outcome.diverged, { a1 with trace := a1.trace ++ [cmd] })
  | rt :: rest =>
    let a2 : AdapterState := { a1 with script := rest }
    if rt.enqOk then
      let a3 : AdapterState := { a2 with trace := a2.trace ++ [cmd] }
      if rt.popOk then
        (Outcome.ok rt.resp, { a3 with responseBuf := some rt.resp })
      else
        (Outcome.panicked popFailMsg, a3)
    else
      (Outcome.panicked addBufFailMsg, a2)

/-- The response-type check shared verbatim by every command that expects a
single success code: mismatch yields `Err(QueueUnknownError)`.  The check
is pure and leaves the adapter unchanged. -/
def checkRespType (expected : VirtioGpuCtrlType)
    (p : Outcome GpuResponse × AdapterState) : Outcome Unit × AdapterState :=
  (match p.1 with
   | Outcome.ok resp =>
     if resp.header_type ≠ expected then Outcome.err VirtioDeviceError.QueueUnknownError
     else Outcome.ok ()
   | Outcome.err e => Outcome.err e
   | Outcome.panicked msg => Outcome.panicked msg
   | Outcome.diverged => Outcome.diverged,
   p.2)

/-- Lift an operation on the control adapter to the whole device state;
corresponds to a method body that only touches `self.control_queue`,
`self.control_request` and `self.control_response`. -/
def liftCtrl {α : Type} (f : AdapterState → Outcome α × AdapterState)
    (s : GpuState) : Outcome α × GpuState :=
  ((f s.control).1, { s with control := (f s.control).2 })

/-- Lift an operation on the cursor adapter to the whole device state;
corresponds to a method body that only touches `self.cursor_queue`,
`self.cursor_request` and `self.cursor_response`. -/
def liftCursor {α : Type} (f : AdapterState → Outcome α × AdapterState)
    (s : GpuState) : Outcome α × GpuState :=
  ((f s.cursor).1, { s with cursor := (f s.cursor).2 })

/-- Sequencing of a fallible step, mirroring Rust `?` and propagating
panics and divergence. -/
def andThenG {α β : Type} (p : Outcome α × GpuState)
    (f : α → GpuState → Outcome β × GpuState) : Outcome β × GpuState :=
  match p.1 with
  | Outcome.ok x => f x p.2
  | Outcome.err e => (Outcome.err e, p.2)
  | Outcome.panicked msg => (Outcome.panicked msg, p.2)
  | Outcome.diverged => (Outcome.diverged, p.2)

/-- `GPUDevice::request_edid_info`: submits a defaulted
`virtio_gpu_get_edid` on the control queue and requires
`VIRTIO_GPU_RESP_OK_EDID`. -/
def request_edid_info (s : GpuState) : Outcome Unit × GpuState :=
  liftCtrl (fun a =>
    checkRespType VIRTIO_GPU_RESP_OK_EDID
      (roundTrip a (GpuCommand.getEdid ⟨0⟩))) s

/-- `GPUDevice::request_display_info`: submits a bare header with type
`VIRTIO_GPU_CMD_GET_DISPLAY_INFO` on the control queue and returns the
response read from the response buffer.  The source performs no check of
the response header type. -/
def request_display_info (s : GpuState) : Outcome GpuResponse × GpuState :=
  liftCtrl (fun a => roundTrip a GpuCommand.getDisplayInfo) s

/-- `GPUDevice::resolution`: queries display info and unwraps the rectangle
of scanout 0 (panics when it is absent). -/
def resolution (s : GpuState) : Outcome (Nat × Nat) × GpuState :=
  andThenG (request_display_info s) fun display_info s1 =>
    match display_info.get_rect 0 with
    | some rect => (Outcome.ok (rect.width, rect.height), s1)
    | none => (Outcome.panicked unwrapNoneMsg, s1)

/-- `GPUDevice::resource_create_2d`: creates a host 2D resource with format
`VIRTIO_GPU_FORMAT_B8G8R8A8_UNORM`; requires `VIRTIO_GPU_RESP_OK_NODATA`. -/
def resource_create_2d (s : GpuState) (resource_id width height : Nat) :
    Outcome Unit × GpuState :=
  liftCtrl (fun a =>
    checkRespType VIRTIO_GPU_RESP_OK_NODATA
      (roundTrip a (GpuCommand.resourceCreate2D
        (VirtioGpuResourceCreate2D.new resource_id
          VirtioGpuFormat.VIRTIO_GPU_FORMAT_B8G8R8A8_UNORM width height)))) s

/-- `GPUDevice::resource_attch_backing`: writes the attach-backing header
`(resource_id, 1)` and one memory entry `(paddr, size)` into the control
request buffer, performs one control-queue round trip, and requires
`VIRTIO_GPU_RESP_OK_NODATA`.  No lifecycle precondition is checked. -/
def resource_attch_backing (s : GpuState) (resource_id paddr size : Nat) :
    Outcome Unit × GpuState :=
  liftCtrl (fun a =>
    checkRespType VIRTIO_GPU_RESP_OK_NODATA
      (roundTrip a (GpuCommand.resourceAttachBacking
        (VirtioGpuResourceAttachBacking.new resource_id 1)
        (VirtioGpuMemEntry.new paddr size)))) s

/-- `GPUDevice::set_scanout`: binds a resource to a scanout; requires
`VIRTIO_GPU_RESP_OK_NODATA`. -/
def set_scanout (s : GpuState) (rect : VirtioGpuRect) (scanout_id resource_id : Nat) :
    Outcome Unit × GpuState :=
  liftCtrl (fun a =>
    checkRespType VIRTIO_GPU_RESP_OK_NODATA
      (roundTrip a (GpuCommand.setScanout
        (VirtioGpuSetScanout.new scanout_id resource_id rect)))) s

/-- `GPUDevice::transfer_to_host_2d`: guest-to-host copy of `rect` at the
given offset; requires `VIRTIO_GPU_RESP_OK_NODATA`. -/
def transfer_to_host_2d (s : GpuState) (rect : VirtioGpuRect) (offset resource_id : Nat) :
    Outcome Unit × GpuState :=
  liftCtrl (fun a =>
    checkRespType VIRTIO_GPU_RESP_OK_NODATA
      (roundTrip a (GpuCommand.transferToHost2D
        (VirtioGpuTransferToHost2D.new rect offset resource_id)))) s

/-- `GPUDevice::resource_flush`: asks the host to present the resource on
its bound scanout; requires `VIRTIO_GPU_RESP_OK_NODATA`. -/
def resource_flush (s : GpuState) (rect : VirtioGpuRect) (resource_id : Nat) :
    Outcome Unit × GpuState :=
  liftCtrl (fun a =>
    checkRespType VIRTIO_GPU_RESP_OK_NODATA
      (roundTrip a (GpuCommand.resourceFlush
        (VirtioGpuResourceFlush.new rect resource_id)))) s

/-- `GPUDevice::setup_framebuffer`: query display info, unwrap the rect of
scanout 0, create resource `0xbabe` sized to the rect, allocate
`size / 4096 + 1` pages for the framebuffer, attach it as backing
(`size as u32`), bind it to scanout 0, and return the buffer handle.
Every fallible step propagates its error immediately via `?`. -/
def setup_framebuffer (s : GpuState) : Outcome FrameBuffer × GpuState :=
  andThenG (request_display_info s) fun display_info s1 =>
    match display_info.get_rect 0 with
    | none => (Outcome.panicked unwrapNoneMsg, s1)
    | some rect =>
      andThenG (resource_create_2d s1 0xbabe rect.width rect.height) fun _ s2 =>
        let size : Nat := (rect.width * rect.height * 4) % USIZE_MOD
        let fracme_num : Nat := size / 4096 + 1
        let frame_buffer_dma : FrameBuffer := ⟨s2.allocPaddr, fracme_num⟩
        andThenG (resource_attch_backing s2 0xbabe frame_buffer_dma.paddr
            (size % U32_MOD)) fun _ s3 =>
          andThenG (set_scanout s3 rect 0 0xbabe) fun _ s4 =>
            (Outcome.ok frame_buffer_dma, s4)

/-- `GPUDevice::flush`: re-query display info, unwrap the rect of scanout
0, transfer the whole rect at offset 0 to host resource `0xbabe`, then
flush that resource; each step propagates its error via `?`. -/
def flush (s : GpuState) : Outcome Unit × GpuState :=
  andThenG (request_display_info s) fun display_info s1 =>
    match display_info.get_rect 0 with
    | none => (Outcome.panicked unwrapNoneMsg, s1)
    | some rect =>
      andThenG (transfer_to_host_2d s1 rect 0 0xbabe) fun _ s2 =>
        andThenG (resource_flush s2 rect 0xbabe) fun _ s3 =>
          (Outcome.ok (), s3)

/-- `GPUDevice::update_cursor`: builds a cursor request with position
`(scanout_id, 0, 0)`, resource id `0xdade` and hot spot `(32, 32)` —
ignoring the caller's `resource_id`, `pos_x`, `pos_y`, `hot_x`, `hot_y`
and `move_only` — submits it on the cursor queue and requires
`VIRTIO_GPU_RESP_OK_NODATA`. -/
def update_cursor (s : GpuState) (resource_id scanout_id pos_x pos_y hot_x hot_y : Nat)
    (move_only : Bool) : Outcome Unit × GpuState :=
  liftCursor (fun a =>
    checkRespType VIRTIO_GPU_RESP_OK_NODATA
      (roundTrip a (GpuCommand.updateCursor
        (VirtioGpuUpdateCursor.new (VirtioGpuCursorPos.new scanout_id 0 0)
          0xdade 32 32)))) s

/-- A round trip whose enqueue and pop both succeed and whose response is
`r`. -/
def okRT (r : GpuResponse) : RoundTrip := ⟨true, true, r⟩

/-- The plain `VIRTIO_GPU_RESP_OK_NODATA` response. -/
def nodataResp : GpuResponse := ⟨VIRTIO_GPU_RESP_OK_NODATA, []⟩

/-- A fresh adapter with the given device script. -/
def freshAdapter (script : List RoundTrip) : AdapterState := ⟨script, [], none, none⟩

/-- A fresh device state: control script, cursor script, allocator
address. -/
def mkState (ctrl cursor : List RoundTrip) (paddr : Nat) : GpuState :=
  ⟨freshAdapter ctrl, freshAdapter cursor, paddr⟩

/-- C1 (amended): every command except get-display-info checks the
response header type against its family's single success code
(`VIRTIO_GPU_RESP_OK_NODATA` for resource-create-2d, attach-backing,
set-scanout, transfer-to-host-2d, resource-flush and update-cursor;
`VIRTIO_GPU_RESP_OK_EDID` for get-edid) and returns
`Err(QueueUnknownError)` exactly when the type differs; get-display-info
performs no such check and returns the response data whatever its header
type is. -/
theorem c1_response_type_check_per_command
    (t : VirtioGpuCtrlType) (rs : List VirtioGpuRect) (ks : List RoundTrip)
    (p id w h paddr sz scid off rid px py hx hy : Nat)
    (rect : VirtioGpuRect) (mv : Bool) :
    ((resource_create_2d (mkState [okRT ⟨t, rs⟩] ks p) id w h).1
        = if t ≠ VIRTIO_GPU_RESP_OK_NODATA
          then Outcome.err VirtioDeviceError.QueueUnknownError else Outcome.ok ())
    ∧ ((resource_attch_backing (mkState [okRT ⟨t, rs⟩] ks p) id paddr sz).1
        = if t ≠ VIRTIO_GPU_RESP_OK_NODATA
          then Outcome.err VirtioDeviceError.QueueUnknownError else Outcome.ok ())
    ∧ ((set_scanout (mkState [okRT ⟨t, rs⟩] ks p) rect scid id).1
        = if t ≠ VIRTIO_GPU_RESP_OK_NODATA
          then Outcome.err VirtioDeviceError.QueueUnknownError else Outcome.ok ())
    ∧ ((transfer_to_host_2d (mkState [okRT ⟨t, rs⟩] ks p) rect off id).1
        = if t ≠ VIRTIO_GPU_RESP_OK_NODATA
          then Outcome.err VirtioDeviceError.QueueUnknownError else Outcome.ok ())
    ∧ ((resource_flush (mkState [okRT ⟨t, rs⟩] ks p) rect id).1
        = if t ≠ VIRTIO_GPU_RESP_OK_NODATA
          then Outcome.err VirtioDeviceError.QueueUnknownError else Outcome.ok ())
    ∧ ((update_cursor (mkState ks [okRT ⟨t, rs⟩] p) rid scid px py hx hy mv).1
        = if t ≠ VIRTIO_GPU_RESP_OK_NODATA
          then Outcome.err VirtioDeviceError.QueueUnknownError else Outcome.ok ())
    ∧ ((request_edid_info (mkState [okRT ⟨t, rs⟩] ks p)).1
        = if t ≠ VIRTIO_GPU_RESP_OK_EDID
          then Outcome.err VirtioDeviceError.QueueUnknownError else Outcome.ok ())
    ∧ ((request_display_info (mkState [okRT ⟨t, rs⟩] ks p)).1 = Outcome.ok ⟨t, rs⟩) :=
  ⟨rfl, rfl, rfl, rfl, rfl, rfl, rfl, rfl⟩

/-- C1 counterexample: a get-display-info request whose response header
type is `VIRTIO_GPU_RESP_ERR_UNSPEC` (not `VIRTIO_GPU_RESP_OK_DISPLAY_INFO`)
still returns `Ok` with the response data; the source performs no type
check in `request_display_info`. -/
theorem c1_get_display_info_unchecked_cex :
    (request_display_info
        (mkState [okRT ⟨VIRTIO_GPU_RESP_ERR_UNSPEC, []⟩] [] 0)).1
      = Outcome.ok ⟨VIRTIO_GPU_RESP_ERR_UNSPEC, []⟩ :=
  rfl

/-- C2 (amended): `resource_attch_backing` performs no lifecycle
precondition check: from a fresh session in which no resource-create-2d
was ever issued, the attach-backing command is still serialized and
enqueued on the control queue (one full transport round trip), and the
outcome is decided solely by the device's response type. -/
theorem c2_attach_backing_reaches_transport
    (resp : GpuResponse) (rest ks : List RoundTrip) (p id paddr sz : Nat) :
    ((resource_attch_backing (mkState (okRT resp :: rest) ks p) id paddr sz).2.control.trace
        = [GpuCommand.resourceAttachBacking ⟨id, 1⟩ ⟨paddr, sz⟩])
    ∧ ((resource_attch_backing (mkState (okRT resp :: rest) ks p) id paddr sz).2.control.script
        = rest)
    ∧ ((resource_attch_backing (mkState (okRT resp :: rest) ks p) id paddr sz).1
        = if resp.header_type ≠ VIRTIO_GPU_RESP_OK_NODATA
          then Outcome.err VirtioDeviceError.QueueUnknownError else Outcome.ok ()) :=
  ⟨rfl, rfl, rfl⟩

/-- C2 counterexample: attach-backing for resource id `0xbabe`, for which
no resource-create-2d ever succeeded (fresh state, empty trace), is not
rejected before submission: it reaches the control queue (trace gains one
entry, one script entry is consumed) and even succeeds when the device
answers `VIRTIO_GPU_RESP_OK_NODATA`. -/
theorem c2_no_precondition_check_cex :
    ((resource_attch_backing (mkState [okRT nodataResp] [] 0) 0xbabe 4096 64).1
        = Outcome.ok ())
    ∧ ((resource_attch_backing (mkState [okRT nodataResp] [] 0) 0xbabe 4096 64).2.control.trace
        = [GpuCommand.resourceAttachBacking ⟨0xbabe, 1⟩ ⟨4096, 64⟩])
    ∧ ((resource_attch_backing (mkState [okRT nodataResp] [] 0) 0xbabe 4096 64).2.control.script
        = []) :=
  ⟨rfl, rfl, rfl⟩

/-- C3: when every device response carries the expected success code,
`setup_framebuffer` issues, in order: the display-info query,
resource-create-2d for id `0xbabe` with format
`VIRTIO_GPU_FORMAT_B8G8R8A8_UNORM` and the width/height of scanout 0's
rectangle, resource-attach-backing of the freshly allocated DMA buffer,
and set-scanout binding `0xbabe` to scanout 0, returning the buffer
handle; if the create, attach or set-scanout step gets an unexpected
response type, the error is returned immediately, no later command is
issued, and no rollback command is issued either (the trace is exactly
the prefix up to the failing command). -/
theorem c3_setup_framebuffer_sequence
    (dt et : VirtioGpuCtrlType) (rect : VirtioGpuRect) (rrest : List VirtioGpuRect)
    (ks : List RoundTrip) (p : Nat)
    (het : et ≠ VIRTIO_GPU_RESP_OK_NODATA) :
    ((setup_framebuffer (mkState [okRT ⟨dt, rect :: rrest⟩, okRT nodataResp,
          okRT nodataResp, okRT nodataResp] ks p)).1
        = Outcome.ok ⟨p, (rect.width * rect.height * 4) % USIZE_MOD / 4096 + 1⟩)
    ∧ ((setup_framebuffer (mkState [okRT ⟨dt, rect :: rrest⟩, okRT nodataResp,
          okRT nodataResp, okRT nodataResp] ks p)).2.control.trace
        = [GpuCommand.getDisplayInfo,
           GpuCommand.resourceCreate2D
             ⟨0xbabe, VirtioGpuFormat.VIRTIO_GPU_FORMAT_B8G8R8A8_UNORM,
              rect.width, rect.height⟩,
           GpuCommand.resourceAttachBacking ⟨0xbabe, 1⟩
             ⟨p, (rect.width * rect.height * 4) % USIZE_MOD % U32_MOD⟩,
           GpuCommand.setScanout ⟨0, 0xbabe, rect⟩])
    ∧ ((setup_framebuffer (mkState [okRT ⟨dt, rect :: rrest⟩, okRT ⟨et, []⟩] ks p)).1
        = Outcome.err VirtioDeviceError.QueueUnknownError)
    ∧ ((setup_framebuffer (mkState [okRT ⟨dt, rect :: rrest⟩, okRT ⟨et, []⟩] ks p)).2.control.trace
        = [GpuCommand.getDisplayInfo,
           GpuCommand.resourceCreate2D
             ⟨0xbabe, VirtioGpuFormat.VIRTIO_GPU_FORMAT_B8G8R8A8_UNORM,
              rect.width, rect.height⟩])
    ∧ ((setup_framebuffer (mkState [okRT ⟨dt, rect :: rrest⟩, okRT nodataResp,
          okRT ⟨et, []⟩] ks p)).1
        = Outcome.err VirtioDeviceError.QueueUnknownError)
    ∧ ((setup_framebuffer (mkState [okRT ⟨dt, rect :: rrest⟩, okRT nodataResp,
          okRT ⟨et, []⟩] ks p)).2.control.trace
        = [GpuCommand.getDisplayInfo,
           GpuCommand.resourceCreate2D
             ⟨0xbabe, VirtioGpuFormat.VIRTIO_GPU_FORMAT_B8G8R8A8_UNORM,
              rect.width, rect.height⟩,
           GpuCommand.resourceAttachBacking ⟨0xbabe, 1⟩
             ⟨p, (rect.width * rect.height * 4) % USIZE_MOD % U32_MOD⟩])
    ∧ ((setup_framebuffer (mkState [okRT ⟨dt, rect :: rrest⟩, okRT nodataResp,
          okRT nodataResp, okRT ⟨et, []⟩] ks p)).1
        = Outcome.err VirtioDeviceError.QueueUnknownError)
    ∧ ((setup_framebuffer (mkState [okRT ⟨dt, rect :: rrest⟩, okRT nodataResp,
          okRT nodataResp, okRT ⟨et, []⟩] ks p)).2.control.trace
        = [GpuCommand.getDisplayInfo,
           GpuCommand.resourceCreate2D
             ⟨0xbabe, VirtioGpuFormat.VIRTIO_GPU_FORMAT_B8G8R8A8_UNORM,
              rect.width, rect.height⟩,
           GpuCommand.resourceAttachBacking ⟨0xbabe, 1⟩
             ⟨p, (rect.width * rect.height * 4) % USIZE_MOD % U32_MOD⟩,
           GpuCommand.setScanout ⟨0, 0xbabe, rect⟩]) := by
  refine ⟨rfl, rfl, ?_, ?_, ?_, ?_, ?_, ?_⟩ <;>
    simp [setup_framebuffer, resource_create_2d, resource_attch_backing, set_scanout,
      request_display_info, liftCtrl, roundTrip, checkRespType, andThenG, mkState,
      freshAdapter, okRT, GpuResponse.get_rect, GpuResponse.header_type, nodataResp,
      listNth, VirtioGpuResourceCreate2D.new, VirtioGpuResourceAttachBacking.new,
      VirtioGpuMemEntry.new, VirtioGpuSetScanout.new, het]

/-- C3 witness: the sequencing theorem instantiated at a 1280 by 800
scanout with `VIRTIO_GPU_RESP_ERR_UNSPEC` as the failing response type. -/
theorem c3_setup_framebuffer_sequence_witness :
    ((setup_framebuffer (mkState [okRT ⟨VIRTIO_GPU_RESP_OK_DISPLAY_INFO, [⟨0, 0, 1280, 800⟩]⟩,
          okRT nodataResp, okRT nodataResp, okRT nodataResp] [] 7)).1
        = Outcome.ok ⟨7, (1280 * 800 * 4) % USIZE_MOD / 4096 + 1⟩)
    ∧ ((setup_framebuffer (mkState [okRT ⟨VIRTIO_GPU_RESP_OK_DISPLAY_INFO, [⟨0, 0, 1280, 800⟩]⟩,
          okRT nodataResp, okRT nodataResp, okRT nodataResp] [] 7)).2.control.trace
        = [GpuCommand.getDisplayInfo,
           GpuCommand.resourceCreate2D
             ⟨0xbabe, VirtioGpuFormat.VIRTIO_GPU_FORMAT_B8G8R8A8_UNORM, 1280, 800⟩,
           GpuCommand.resourceAttachBacking ⟨0xbabe, 1⟩
             ⟨7, (1280 * 800 * 4) % USIZE_MOD % U32_MOD⟩,
           GpuCommand.setScanout ⟨0, 0xbabe, ⟨0, 0, 1280, 800⟩⟩])
    ∧ ((setup_framebuffer (mkState [okRT ⟨VIRTIO_GPU_RESP_OK_DISPLAY_INFO, [⟨0, 0, 1280, 800⟩]⟩,
          okRT ⟨VIRTIO_GPU_RESP_ERR_UNSPEC, []⟩] [] 7)).1
        = Outcome.err VirtioDeviceError.QueueUnknownError)
    ∧ ((setup_framebuffer (mkState [okRT ⟨VIRTIO_GPU_RESP_OK_DISPLAY_INFO, [⟨0, 0, 1280, 800⟩]⟩,
          okRT ⟨VIRTIO_GPU_RESP_ERR_UNSPEC, []⟩] [] 7)).2.control.trace
        = [GpuCommand.getDisplayInfo,
           GpuCommand.resourceCreate2D
             ⟨0xbabe, VirtioGpuFormat.VIRTIO_GPU_FORMAT_B8G8R8A8_UNORM, 1280, 800⟩])
    ∧ ((setup_framebuffer (mkState [okRT ⟨VIRTIO_GPU_RESP_OK_DISPLAY_INFO, [⟨0, 0, 1280, 800⟩]⟩,
          okRT nodataResp, okRT ⟨VIRTIO_GPU_RESP_ERR_UNSPEC, []⟩] [] 7)).1
        = Outcome.err VirtioDeviceError.QueueUnknownError)
    ∧ ((setup_framebuffer (mkState [okRT ⟨VIRTIO_GPU_RESP_OK_DISPLAY_INFO, [⟨0, 0, 1280, 800⟩]⟩,
          okRT nodataResp, okRT ⟨VIRTIO_GPU_RESP_ERR_UNSPEC, []⟩] [] 7)).2.control.trace
        = [GpuCommand.getDisplayInfo,
           GpuCommand.resourceCreate2D
             ⟨0xbabe, VirtioGpuFormat.VIRTIO_GPU_FORMAT_B8G8R8A8_UNORM, 1280, 800⟩,
           GpuCommand.resourceAttachBacking ⟨0xbabe, 1⟩
             ⟨7, (1280 * 800 * 4) % USIZE_MOD % U32_MOD⟩])
    ∧ ((setup_framebuffer (mkState [okRT ⟨VIRTIO_GPU_RESP_OK_DISPLAY_INFO, [⟨0, 0, 1280, 800⟩]⟩,
          okRT nodataResp, okRT nodataResp, okRT ⟨VIRTIO_GPU_RESP_ERR_UNSPEC, []⟩] [] 7)).1
        = Outcome.err VirtioDeviceError.QueueUnknownError)
    ∧ ((setup_framebuffer (mkState [okRT ⟨VIRTIO_GPU_RESP_OK_DISPLAY_INFO, [⟨0, 0, 1280, 800⟩]⟩,
          okRT nodataResp, okRT nodataResp, okRT ⟨VIRTIO_GPU_RESP_ERR_UNSPEC, []⟩] [] 7)).2.control.trace
        = [GpuCommand.getDisplayInfo,
           GpuCommand.resourceCreate2D
             ⟨0xbabe, VirtioGpuFormat.VIRTIO_GPU_FORMAT_B8G8R8A8_UNORM, 1280, 800⟩,
           GpuCommand.resourceAttachBacking ⟨0xbabe, 1⟩
             ⟨7, (1280 * 800 * 4) % USIZE_MOD % U32_MOD⟩,
           GpuCommand.setScanout ⟨0, 0xbabe, ⟨0, 0, 1280, 800⟩⟩]) :=
  c3_setup_framebuffer_sequence VIRTIO_GPU_RESP_OK_DISPLAY_INFO VIRTIO_GPU_RESP_ERR_UNSPEC
    ⟨0, 0, 1280, 800⟩ [] [] 7 (by decide)

/-- C4 (amended): a single `flush` call results in exactly three
control-queue round trips — `GET_DISPLAY_INFO` (the re-query), then
`TRANSFER_TO_HOST_2D`, then `RESOURCE_FLUSH`, in that order — with no
other control command and nothing on the cursor queue.  The claim's
count of two is off by one: the display-info re-query inside `flush` is
itself a control-queue round trip. -/
theorem c4_flush_three_control_roundtrips
    (dt : VirtioGpuCtrlType) (rect : VirtioGpuRect) (rrest : List VirtioGpuRect)
    (ks : List RoundTrip) (p : Nat) :
    ((flush (mkState [okRT ⟨dt, rect :: rrest⟩, okRT nodataResp, okRT nodataResp] ks p)).1
        = Outcome.ok ())
    ∧ ((flush (mkState [okRT ⟨dt, rect :: rrest⟩, okRT nodataResp, okRT nodataResp] ks p)).2.control.trace
        = [GpuCommand.getDisplayInfo,
           GpuCommand.transferToHost2D ⟨rect, 0, 0xbabe⟩,
           GpuCommand.resourceFlush ⟨rect, 0xbabe⟩])
    ∧ ((flush (mkState [okRT ⟨dt, rect :: rrest⟩, okRT nodataResp, okRT nodataResp] ks p)).2.control.trace.length
        = 3)
    ∧ ((flush (mkState [okRT ⟨dt, rect :: rrest⟩, okRT nodataResp, okRT nodataResp] ks p)).2.cursor
        = freshAdapter ks) :=
  ⟨rfl, rfl, rfl, rfl⟩

/-- C4 counterexample: with a 1280 by 800 scanout and a device that
answers every command successfully, one `flush` performs three
control-queue round trips, not two, and the first command issued is
`GET_DISPLAY_INFO`, not `TRANSFER_TO_HOST_2D`. -/
theorem c4_flush_not_two_roundtrips_cex :
    ((flush (mkState [okRT ⟨VIRTIO_GPU_RESP_OK_DISPLAY_INFO, [⟨0, 0, 1280, 800⟩]⟩,
          okRT nodataResp, okRT nodataResp] [] 0)).2.control.trace.length = 3)
    ∧ ((flush (mkState [okRT ⟨VIRTIO_GPU_RESP_OK_DISPLAY_INFO, [⟨0, 0, 1280, 800⟩]⟩,
          okRT nodataResp, okRT nodataResp] [] 0)).2.control.trace
        = [GpuCommand.getDisplayInfo,
           GpuCommand.transferToHost2D ⟨⟨0, 0, 1280, 800⟩, 0, 0xbabe⟩,
           GpuCommand.resourceFlush ⟨⟨0, 0, 1280, 800⟩, 0xbabe⟩])
    ∧ ((flush (mkState [okRT ⟨VIRTIO_GPU_RESP_OK_DISPLAY_INFO, [⟨0, 0, 1280, 800⟩]⟩,
          okRT nodataResp, okRT nodataResp] [] 0)).1 = Outcome.ok ()) :=
  ⟨rfl, rfl, rfl⟩

/-- C5: `flush` first re-queries display info, then issues
transfer-to-host-2d for the whole rectangle of scanout 0 at offset 0,
then resource-flush for the same rectangle; when transfer-to-host-2d
gets an unexpected response type, resource-flush is never issued and the
error propagates to the caller. -/
theorem c5_flush_order_and_error_gating
    (dt et : VirtioGpuCtrlType) (rect : VirtioGpuRect) (rrest : List VirtioGpuRect)
    (ks : List RoundTrip) (p : Nat)
    (het : et ≠ VIRTIO_GPU_RESP_OK_NODATA) :
    ((flush (mkState [okRT ⟨dt, rect :: rrest⟩, okRT nodataResp, okRT nodataResp] ks p)).1
        = Outcome.ok ())
    ∧ ((flush (mkState [okRT ⟨dt, rect :: rrest⟩, okRT nodataResp, okRT nodataResp] ks p)).2.control.trace
        = [GpuCommand.getDisplayInfo,
           GpuCommand.transferToHost2D ⟨rect, 0, 0xbabe⟩,
           GpuCommand.resourceFlush ⟨rect, 0xbabe⟩])
    ∧ ((flush (mkState [okRT ⟨dt, rect :: rrest⟩, okRT ⟨et, []⟩] ks p)).1
        = Outcome.err VirtioDeviceError.QueueUnknownError)
    ∧ ((flush (mkState [okRT ⟨dt, rect :: rrest⟩, okRT ⟨et, []⟩] ks p)).2.control.trace
        = [GpuCommand.getDisplayInfo,
           GpuCommand.transferToHost2D ⟨rect, 0, 0xbabe⟩]) := by
  refine ⟨rfl, rfl, ?_, ?_⟩ <;>
    simp [flush, transfer_to_host_2d, resource_flush, request_display_info, liftCtrl,
      roundTrip, checkRespType, andThenG, mkState, freshAdapter, okRT,
      GpuResponse.get_rect, GpuResponse.header_type, nodataResp, listNth,
      VirtioGpuTransferToHost2D.new, VirtioGpuResourceFlush.new, het]

/-- C5 witness: the flush ordering theorem instantiated at a 1280 by 800
scanout with `VIRTIO_GPU_RESP_ERR_UNSPEC` as the failing response type for
the transfer step. -/
theorem c5_flush_order_and_error_gating_witness :
    ((flush (mkState [okRT ⟨VIRTIO_GPU_RESP_OK_DISPLAY_INFO, [⟨0, 0, 1280, 800⟩]⟩,
          okRT nodataResp, okRT nodataResp] [] 0)).1 = Outcome.ok ())
    ∧ ((flush (mkState [okRT ⟨VIRTIO_GPU_RESP_OK_DISPLAY_INFO, [⟨0, 0, 1280, 800⟩]⟩,
          okRT nodataResp, okRT nodataResp] [] 0)).2.control.trace
        = [GpuCommand.getDisplayInfo,
           GpuCommand.transferToHost2D ⟨⟨0, 0, 1280, 800⟩, 0, 0xbabe⟩,
           GpuCommand.resourceFlush ⟨⟨0, 0, 1280, 800⟩, 0xbabe⟩])
    ∧ ((flush (mkState [okRT ⟨VIRTIO_GPU_RESP_OK_DISPLAY_INFO, [⟨0, 0, 1280, 800⟩]⟩,
          okRT ⟨VIRTIO_GPU_RESP_ERR_UNSPEC, []⟩] [] 0)).1
        = Outcome.err VirtioDeviceError.QueueUnknownError)
    ∧ ((flush (mkState [okRT ⟨VIRTIO_GPU_RESP_OK_DISPLAY_INFO, [⟨0, 0, 1280, 800⟩]⟩,
          okRT ⟨VIRTIO_GPU_RESP_ERR_UNSPEC, []⟩] [] 0)).2.control.trace
        = [GpuCommand.getDisplayInfo,
           GpuCommand.transferToHost2D ⟨⟨0, 0, 1280, 800⟩, 0, 0xbabe⟩]) :=
  c5_flush_order_and_error_gating VIRTIO_GPU_RESP_OK_DISPLAY_INFO VIRTIO_GPU_RESP_ERR_UNSPEC
    ⟨0, 0, 1280, 800⟩ [] [] 0 (by decide)

/-- C6 (amended): when `add_dma_buf` fails the driver panics with
"Add buffers to queue failed" (via `expect`) before anything reaches the
virtqueue, and when `pop_used` fails after the completion signal it
panics with "Pop used failed"; in neither case is an error value
returned, and in neither case is the request retried — exactly one
script entry is consumed and at most one command is enqueued.  Shown for
`resource_create_2d` (control queue) and `update_cursor` (cursor
queue). -/
theorem c6_transport_failure_panics
    (resp : GpuResponse) (b : Bool) (rest ks : List RoundTrip)
    (p id w h rid scid px py hx hy : Nat) (mv : Bool) :
    ((resource_create_2d (mkState (⟨false, b, resp⟩ :: rest) ks p) id w h).1
        = Outcome.panicked addBufFailMsg)
    ∧ ((resource_create_2d (mkState (⟨false, b, resp⟩ :: rest) ks p) id w h).2.control.script
        = rest)
    ∧ ((resource_create_2d (mkState (⟨false, b, resp⟩ :: rest) ks p) id w h).2.control.trace
        = [])
    ∧ ((resource_create_2d (mkState (⟨true, false, resp⟩ :: rest) ks p) id w h).1
        = Outcome.panicked popFailMsg)
    ∧ ((resource_create_2d (mkState (⟨true, false, resp⟩ :: rest) ks p) id w h).2.control.script
        = rest)
    ∧ ((resource_create_2d (mkState (⟨true, false, resp⟩ :: rest) ks p) id w h).2.control.trace
        = [GpuCommand.resourceCreate2D
             ⟨id, VirtioGpuFormat.VIRTIO_GPU_FORMAT_B8G8R8A8_UNORM, w, h⟩])
    ∧ ((update_cursor (mkState ks (⟨false, b, resp⟩ :: rest) p) rid scid px py hx hy mv).1
        = Outcome.panicked addBufFailMsg)
    ∧ ((update_cursor (mkState ks (⟨false, b, resp⟩ :: rest) p) rid scid px py hx hy mv).2.cursor.script
        = rest)
    ∧ ((update_cursor (mkState ks (⟨false, b, resp⟩ :: rest) p) rid scid px py hx hy mv).2.cursor.trace
        = [])
    ∧ ((update_cursor (mkState ks (⟨true, false, resp⟩ :: rest) p) rid scid px py hx hy mv).1
        = Outcome.panicked popFailMsg)
    ∧ ((update_cursor (mkState ks (⟨true, false, resp⟩ :: rest) p) rid scid px py hx hy mv).2.cursor.script
        = rest)
    ∧ ((update_cursor (mkState ks (⟨true, false, resp⟩ :: rest) p) rid scid px py hx hy mv).2.cursor.trace
        = [GpuCommand.updateCursor ⟨⟨scid, 0, 0⟩, 0xdade, 32, 32⟩]) :=
  ⟨rfl, rfl, rfl, rfl, rfl, rfl, rfl, rfl, rfl, rfl, rfl, rfl⟩

/-- C6 counterexample: when enqueue fails, `resource_create_2d` does not
return a transport error to the caller — it panics through `expect`, so
the caller never receives an `Err` value at all. -/
theorem c6_panics_not_error_cex :
    ((resource_create_2d (mkState [⟨false, true, nodataResp⟩] [] 0) 0xbabe 1280 800).1
        = Outcome.panicked addBufFailMsg)
    ∧ ((resource_create_2d (mkState [⟨false, true, nodataResp⟩] [] 0) 0xbabe 1280 800).1
        ≠ Outcome.err VirtioDeviceError.QueueUnknownError) :=
  ⟨rfl, by decide⟩

/-- C7: `update_cursor` ignores its `resource_id`, `pos_x`, `pos_y`,
`hot_x`, `hot_y` and `move_only` arguments: for every argument
combination and every device state, the command written into the cursor
request DMA buffer carries resource id `0xdade`, cursor position
`(scanout_id, 0, 0)` and hot spot `(32, 32)`. -/
theorem c7_update_cursor_ignores_arguments
    (s : GpuState) (resource_id scanout_id pos_x pos_y hot_x hot_y : Nat)
    (move_only : Bool) :
    (update_cursor s resource_id scanout_id pos_x pos_y hot_x hot_y move_only).2.cursor.requestBuf
      = some (GpuCommand.updateCursor ⟨⟨scanout_id, 0, 0⟩, 0xdade, 32, 32⟩) := by
  obtain ⟨c, k, p⟩ := s
  obtain ⟨script, tr, rb, sb⟩ := k
  cases script with
  | nil => rfl
  | cons rt rest =>
    obtain ⟨e1, p1, r1⟩ := rt
    cases e1 <;> cases p1 <;> rfl

/-- C8: `update_cursor` writes only the cursor adapter (queue, trace and
DMA buffers) and its result depends only on the cursor adapter, while
each of the seven control commands writes only the control adapter and
its result depends only on the control adapter; neither path ever
touches the other path's queue or DMA buffers. -/
theorem c8_queue_and_buffer_isolation
    (s : GpuState) (c c' k' : AdapterState) (k : AdapterState) (p p' : Nat)
    (id w h paddr sz scid off rid px py hx hy : Nat) (mv : Bool)
    (rect : VirtioGpuRect) :
    ((request_edid_info s).2.cursor = s.cursor
      ∧ (request_display_info s).2.cursor = s.cursor
      ∧ (resource_create_2d s id w h).2.cursor = s.cursor
      ∧ (resource_attch_backing s id paddr sz).2.cursor = s.cursor
      ∧ (set_scanout s rect scid id).2.cursor = s.cursor
      ∧ (transfer_to_host_2d s rect off id).2.cursor = s.cursor
      ∧ (resource_flush s rect id).2.cursor = s.cursor
      ∧ (update_cursor s rid scid px py hx hy mv).2.control = s.control)
    ∧ ((request_edid_info ⟨c, k, p⟩).1 = (request_edid_info ⟨c, k', p'⟩).1
      ∧ (request_edid_info ⟨c, k, p⟩).2.control = (request_edid_info ⟨c, k', p'⟩).2.control
      ∧ (request_display_info ⟨c, k, p⟩).1 = (request_display_info ⟨c, k', p'⟩).1
      ∧ (request_display_info ⟨c, k, p⟩).2.control
          = (request_display_info ⟨c, k', p'⟩).2.control
      ∧ (resource_create_2d ⟨c, k, p⟩ id w h).1 = (resource_create_2d ⟨c, k', p'⟩ id w h).1
      ∧ (resource_create_2d ⟨c, k, p⟩ id w h).2.control
          = (resource_create_2d ⟨c, k', p'⟩ id w h).2.control
      ∧ (resource_attch_backing ⟨c, k, p⟩ id paddr sz).1
          = (resource_attch_backing ⟨c, k', p'⟩ id paddr sz).1
      ∧ (resource_attch_backing ⟨c, k, p⟩ id paddr sz).2.control
          = (resource_attch_backing ⟨c, k', p'⟩ id paddr sz).2.control
      ∧ (set_scanout ⟨c, k, p⟩ rect scid id).1 = (set_scanout ⟨c, k', p'⟩ rect scid id).1
      ∧ (set_scanout ⟨c, k, p⟩ rect scid id).2.control
          = (set_scanout ⟨c, k', p'⟩ rect scid id).2.control
      ∧ (transfer_to_host_2d ⟨c, k, p⟩ rect off id).1
          = (transfer_to_host_2d ⟨c, k', p'⟩ rect off id).1
      ∧ (transfer_to_host_2d ⟨c, k, p⟩ rect off id).2.control
          = (transfer_to_host_2d ⟨c, k', p'⟩ rect off id).2.control
      ∧ (resource_flush ⟨c, k, p⟩ rect id).1 = (resource_flush ⟨c, k', p'⟩ rect id).1
      ∧ (resource_flush ⟨c, k, p⟩ rect id).2.control
          = (resource_flush ⟨c, k', p'⟩ rect id).2.control
      ∧ (update_cursor ⟨c, k, p⟩ rid scid px py hx hy mv).1
          = (update_cursor ⟨c', k, p'⟩ rid scid px py hx hy mv).1
      ∧ (update_cursor ⟨c, k, p⟩ rid scid px py hx hy mv).2.cursor
          = (update_cursor ⟨c', k, p'⟩ rid scid px py hx hy mv).2.cursor) :=
  ⟨⟨rfl, rfl, rfl, rfl, rfl, rfl, rfl, rfl⟩,
   ⟨rfl, rfl, rfl, rfl, rfl, rfl, rfl, rfl, rfl, rfl, rfl, rfl, rfl, rfl, rfl, rfl⟩⟩

/-- C9 (amended): the framebuffer backing allocated by
`setup_framebuffer` is `size / 4096 + 1` pages where
`size = width * height * 4`.  That allocation is always at least `size`
bytes, but it equals the least page multiple that is at least `size`
only when 4096 does not divide `size`; when 4096 divides `size` the
driver allocates exactly one page more than the least multiple. -/
theorem c9_framebuffer_allocation
    (dt : VirtioGpuCtrlType) (rect : VirtioGpuRect) (rrest : List VirtioGpuRect)
    (ks : List RoundTrip) (p : Nat)
    (hsz : rect.width * rect.height * 4 < USIZE_MOD) :
    ((setup_framebuffer (mkState [okRT ⟨dt, rect :: rrest⟩, okRT nodataResp,
          okRT nodataResp, okRT nodataResp] ks p)).1
        = Outcome.ok ⟨p, rect.width * rect.height * 4 / 4096 + 1⟩)
    ∧ rect.width * rect.height * 4 ≤ (rect.width * rect.height * 4 / 4096 + 1) * 4096
    ∧ (rect.width * rect.height * 4 / 4096 + 1) * 4096
        = ((rect.width * rect.height * 4 + 4095) / 4096) * 4096
          + (if 4096 ∣ rect.width * rect.height * 4 then 4096 else 0) := by
  refine ⟨?_, by omega, ?_⟩
  · have h1 : (setup_framebuffer (mkState [okRT ⟨dt, rect :: rrest⟩, okRT nodataResp,
          okRT nodataResp, okRT nodataResp] ks p)).1
        = Outcome.ok ⟨p, (rect.width * rect.height * 4) % USIZE_MOD / 4096 + 1⟩ := rfl
    rw [h1, Nat.mod_eq_of_lt hsz]
  · split <;> omega

/-- C9 witness: the allocation theorem instantiated at a 1024 by 768
scanout (whose byte size is an exact page multiple). -/
theorem c9_framebuffer_allocation_witness :
    ((setup_framebuffer (mkState [okRT ⟨VIRTIO_GPU_RESP_OK_DISPLAY_INFO, [⟨0, 0, 1024, 768⟩]⟩,
          okRT nodataResp, okRT nodataResp, okRT nodataResp] [] 0)).1
        = Outcome.ok ⟨0, 1024 * 768 * 4 / 4096 + 1⟩)
    ∧ 1024 * 768 * 4 ≤ (1024 * 768 * 4 / 4096 + 1) * 4096
    ∧ (1024 * 768 * 4 / 4096 + 1) * 4096
        = ((1024 * 768 * 4 + 4095) / 4096) * 4096
          + (if 4096 ∣ 1024 * 768 * 4 then 4096 else 0) :=
  c9_framebuffer_allocation VIRTIO_GPU_RESP_OK_DISPLAY_INFO ⟨0, 0, 1024, 768⟩ [] [] 0
    (by norm_num [USIZE_MOD])

/-- C9 counterexample: for a 1280 by 800 scanout the byte size
`1280 * 800 * 4 = 4096000` is exactly 1000 pages, yet `setup_framebuffer`
allocates 1001 pages — one more than the least multiple of the page size
that is at least the byte size, contradicting the claimed equality. -/
theorem c9_not_least_multiple_cex :
    ((setup_framebuffer (mkState [okRT ⟨VIRTIO_GPU_RESP_OK_DISPLAY_INFO, [⟨0, 0, 1280, 800⟩]⟩,
          okRT nodataResp, okRT nodataResp, okRT nodataResp] [] 0)).1
        = Outcome.ok ⟨0, 1001⟩)
    ∧ 1280 * 800 * 4 = 1000 * 4096
    ∧ (1001 : Nat) * 4096 ≠ 1000 * 4096 :=
  ⟨rfl, by norm_num, by norm_num⟩

/-- C10: when the display-info response contains no rectangle at index 0,
`resolution`, `setup_framebuffer` and `flush` all panic on the `unwrap`
of `get_rect(0)` instead of returning an error value to the caller. -/
theorem c10_missing_rect_panics
    (dt : VirtioGpuCtrlType) (rest ks : List RoundTrip) (p : Nat) :
    ((resolution (mkState (okRT ⟨dt, []⟩ :: rest) ks p)).1
        = Outcome.panicked unwrapNoneMsg)
    ∧ ((setup_framebuffer (mkState (okRT ⟨dt, []⟩ :: rest) ks p)).1
        = Outcome.panicked unwrapNoneMsg)
    ∧ ((flush (mkState (okRT ⟨dt, []⟩ :: rest) ks p)).1
        = Outcome.panicked unwrapNoneMsg) :=
  ⟨rfl, rfl, rfl⟩

end VirtioGpu
